import Mathlib

/-!
Verification of the visibility-score core: a shallow embedding of
`src/utils/scoring.py` (Scoring Engine) and of
`_filter_local_competitors` from `src/utils/places_api.py`
(Competitor Filter), together with theorems settling the claims about
them.

Conventions of the embedding:
  * Python numbers are modelled exactly: `int` as `ℤ`, `float` values
    arising from the score arithmetic as `ℚ` (the formulas only ever
    divide, multiply and round decimal values, so rational semantics is
    the intended real-number reading).
  * `round(x, 1)` is Python's round-half-to-even, modelled on `ℚ`.
  * `int(x)` truncates toward zero, modelled by `pyTrunc`.
  * dict-shaped profiles are structures; `d.get(k, default)` on the
    business dict becomes `Option.getD`.
  * Python's `list.sort` / `sorted` are stable; they are modelled by
    `List.insertionSort`, which is stable and places earlier elements
    first on ties.
-/

set_option maxRecDepth 16000

/-- Python `round(q)` (round half to even), on exact rational values. -/
def pyRound (q : ℚ) : ℤ :=
  if q - ⌊q⌋ < 1/2 then ⌊q⌋
  else if 1/2 < q - ⌊q⌋ then ⌊q⌋ + 1
  else if ⌊q⌋ % 2 = 0 then ⌊q⌋ else ⌊q⌋ + 1

/-- Python `round(q, 1)`: round to one decimal, half to even. -/
def round1 (q : ℚ) : ℚ := (pyRound (q * 10) : ℚ) / 10

/-- Python `int(q)`: truncation toward zero. -/
def pyTrunc (q : ℚ) : ℤ := if 0 ≤ q then ⌊q⌋ else ⌈q⌉

/-- Completeness-flag breakdown dict built by `_completeness_score`. -/
structure Breakdown where
  has_website : Bool
  has_phone : Bool
  has_hours : Bool
  has_specific_categories : Bool
deriving DecidableEq

/-- The business dict consumed by `calculate_score`; every field the code
reads through `business.get(key, default)` is optional. -/
structure Business where
  rating : Option ℚ
  review_count : Option ℤ
  photo_count : Option ℤ
  has_website : Option Bool
  has_phone : Option Bool
  has_hours : Option Bool
  has_specific_categories : Option Bool
  has_description : Option Bool
  reviews_responded : Option ℤ
  reviews_returned : Option ℤ
deriving DecidableEq

/-- A business dict with every optional key absent. -/
def emptyBusiness : Business :=
  ⟨none, none, none, none, none, none, none, none, none, none⟩

/-- A competitor record as consumed by the scoring core and the filter.
The dicts built by `_normalise_details` carry `place_id`, `name`,
`rating`, `review_count`, …, but `calculate_score` (line 167) and
`_filter_local_competitors` (lines 322–338) read only
`c["review_count"]`, as a mandatory key; `name` is retained as the
record's identity, so that distinct records with equal review counts stay
distinct and ties in the sorts are observable. `RawCompetitor` below
models the dict before the mandatory read, with the key possibly
absent. -/
structure Competitor where
  name : String
  review_count : ℤ
deriving DecidableEq

/-- `_rating_score` from `src/utils/scoring.py`: 0 on a falsy rating,
otherwise `round((min(rating, 5.0) / 5.0) * 35, 1)`. -/
def ratingScore (rating : ℚ) : ℚ :=
  if rating = 0 then 0 else round1 (min rating 5 / 5 * 35)

/-- `_reviews_score` from `src/utils/scoring.py`: absolute step function
of the review count; the `competitor_avg` parameter is accepted but
never used, exactly as in the source. -/
def reviewsScore (review_count : ℤ) (competitor_avg : ℚ) : ℚ :=
  if 200 ≤ review_count then 30
  else if 100 ≤ review_count then 26
  else if 50 ≤ review_count then 21
  else if 30 ≤ review_count then 17
  else if 20 ≤ review_count then 12
  else if 10 ≤ review_count then 7
  else if 1 ≤ review_count then 3
  else 0

/-- `_photos_score`: `round(min(photo_count / 10, 1.0) * 10, 1)`. -/
def photosScore (photo_count : ℤ) : ℚ :=
  round1 (min ((photo_count : ℚ) / 10) 1 * 10)

/-- `_completeness_score`: 4 points per flag (including
`has_specific_categories`, despite its own docstring saying 3), plus the
breakdown dict. -/
def completenessScore (has_website has_phone has_hours has_specific_categories : Bool) :
    ℚ × Breakdown :=
  ((if has_website then 4 else 0) + (if has_phone then 4 else 0) +
     (if has_hours then 4 else 0) + (if has_specific_categories then 4 else 0),
   ⟨has_website, has_phone, has_hours, has_specific_categories⟩)

/-- `_description_score`: constant 4, the input is ignored. -/
def descriptionScore (has_description : Bool) : ℚ := 4

/-- `_response_rate_score`: `round((responded / returned) * 6, 1)`, 0 when
`returned == 0`. -/
def responseRateScore (reviews_responded reviews_returned : ℤ) : ℚ :=
  if reviews_returned = 0 then 0
  else round1 ((reviews_responded : ℚ) / (reviews_returned : ℚ) * 6)

/-- `_grade` from `src/utils/scoring.py`. -/
def gradeOf (total : ℤ) : String :=
  if 85 ≤ total then "A"
  else if 70 ≤ total then "B"
  else if 55 ≤ total then "C"
  else if 40 ≤ total then "D"
  else "F"

/-- `rival = top_competitor_name or "dina konkurrenter"`: Python `or`
falls through on `None` and on the empty string. -/
def rivalOf (top_competitor_name : Option String) : String :=
  match top_competitor_name with
  | none => "dina konkurrenter"
  | some s => if s = "" then "dina konkurrenter" else s

def rating_tip (rival : String) : String :=
  "Du förlorar kunder till " ++ rival ++
    " varje dag på grund av ditt betyg — det är det första potentiella kunder ser. Här är hur du fixar det på 48 timmar: skicka ett enkelt SMS till dina senaste 20 kunder och be om en ärlig recension. Svara på all negativ feedback professionellt inom 24 timmar."

def reviews_tip (rival : String) : String :=
  rival ++
    " dominerar sökresultaten delvis för att de har fler recensioner än dig. Recensioner är den starkaste synlighetssignalen på Google. Sätt upp ett automatiskt uppföljningsmeddelande efter varje avslutat jobb — det tar 10 minuter att bygga och genererar recensioner på autopilot."

def photos_tip : String :=
  "Profiler med 10+ foton får upp till 35% fler klick än de utan. Ladda upp minst 10 högkvalitativa bilder av din verksamhet — exteriör, interiör, personal och arbete i fält. Det tar en timme och ger omedelbar effekt."

def website_tip (rival : String) : String :=
  "Du har ingen webbplats kopplad till din Google-profil. " ++ rival ++
    " har det. Google belönar kompletta profiler med bättre placeringar — lägg till din webbadress direkt i Google Business-profilen."

def phone_tip : String :=
  "Ditt telefonnummer saknas på Google. Kunder som hittar dig söker ofta efter att ringa direkt — utan synligt nummer väljer de nästa företag i listan. Lägg till numret i Google Business-profilen idag."

def hours_tip : String :=
  "Du har inga öppettider inställda på Google. Det är en av de viktigaste rankingfaktorerna för lokal sökning och en av de enklaste att fixa — logga in i Google Business och lägg till dina tider nu."

def categories_tip : String :=
  "Din profil saknar specifika kategorier. Google använder kategorier för att avgöra vilka sökningar du ska visas för — utan rätt kategorier missar du kunder som söker exakt det du erbjuder."

def description_tip (rival : String) : String :=
  "Du saknar en företagsbeskrivning på Google. En välskriven, nyckelordsrik beskrivning förbättrar din synlighet i sök och ger kunder en anledning att välja dig framför " ++
    rival ++ "."

def response_tip : String :=
  "Du svarar inte på dina recensioner. Google tolkar det som att du inte bryr dig om dina kunder — och rankar dig därefter. Sätt av 10 minuter i veckan för att svara på alla recensioner, positiva som negativa."

def fallback_tip : String :=
  "Din profil presterar bra! Fokusera på att upprätthålla en konsekvent recensionskampanj och håll din företagsinformation uppdaterad."

/-- The `scores` dict as populated before `_get_recommendations` is
called (every key `_get_recommendations` can read is present). -/
structure Scores where
  total : ℤ
  rating_score : ℚ
  reviews_score : ℚ
  photos_score : ℚ
  completeness_score : ℚ
  completeness_breakdown : Breakdown
  description_score : ℚ
  response_score : ℚ
  competitor_avg_reviews : ℚ
deriving DecidableEq

/-- `_get_recommendations` from `src/utils/scoring.py`: the ordered rule
list; the `business` parameter is accepted but never read, as in the
source. -/
def getRecommendations (scores : Scores) (business : Business)
    (top_competitor_name : Option String) : List String :=
  let rival := rivalOf top_competitor_name
  let tips :=
    (if scores.rating_score < 15 then [rating_tip rival] else []) ++
    (if scores.reviews_score < 17 then [reviews_tip rival] else []) ++
    (if scores.photos_score < 12 then [photos_tip] else []) ++
    (if scores.completeness_breakdown.has_website then [] else [website_tip rival]) ++
    (if scores.completeness_breakdown.has_phone then [] else [phone_tip]) ++
    (if scores.completeness_breakdown.has_hours then [] else [hours_tip]) ++
    (if scores.completeness_breakdown.has_specific_categories then [] else [categories_tip]) ++
    (if scores.description_score = 0 then [description_tip rival] else []) ++
    (if scores.response_score < 3 then [response_tip] else [])
  if tips.isEmpty then [fallback_tip] else tips

/-- The `max_scores` dict attached to every result. -/
structure MaxScores where
  rating_score : ℕ
  reviews_score : ℕ
  photos_score : ℕ
  completeness_score : ℕ
  description_score : ℕ
  response_score : ℕ
deriving DecidableEq

/-- The full result dict of `calculate_score`. -/
structure ScoreResult extends Scores where
  recommendations : List String
  grade : String
  max_scores : MaxScores
deriving DecidableEq

/-- Lines 167–177 of `calculate_score`:
`comp_review_counts = sorted(c["review_count"] for c in competitors if c["review_count"])`
followed by the median-or-zero computation of `competitor_avg`. Note the
generator keeps only truthy (non-zero) review counts. -/
def competitorAvg (competitors : List Competitor) : ℚ :=
  let comp_review_counts :=
    ((competitors.filter fun c => c.review_count ≠ 0).map fun c => c.review_count).insertionSort
      (fun a b => a ≤ b)
  if comp_review_counts.isEmpty then 0
  else
    let mid := comp_review_counts.length / 2
    if comp_review_counts.length % 2 = 1 then (comp_review_counts.getD mid 0 : ℚ)
    else ((comp_review_counts.getD (mid - 1) 0 : ℚ) + (comp_review_counts.getD mid 0 : ℚ)) / 2

/-- `calculate_score` from `src/utils/scoring.py`. -/
def calculateScore (business : Business) (competitors : List Competitor)
    (top_competitor_name : Option String) : ScoreResult :=
  let competitor_avg : ℚ := competitorAvg competitors
  let rating_score := ratingScore (business.rating.getD 0)
  let reviews_score := reviewsScore (business.review_count.getD 0) competitor_avg
  let photos_score := photosScore (business.photo_count.getD 0)
  let cs := completenessScore (business.has_website.getD false) (business.has_phone.getD false)
    (business.has_hours.getD false) (business.has_specific_categories.getD false)
  let description_score := descriptionScore (business.has_description.getD false)
  let response_score := responseRateScore (business.reviews_responded.getD 0)
    (business.reviews_returned.getD 0)
  let total0 := pyTrunc (rating_score + reviews_score + photos_score + cs.1 +
    description_score + response_score)
  let total := min total0 100
  let scores : Scores :=
    ⟨total, rating_score, reviews_score, photos_score, cs.1, cs.2, description_score,
      response_score, round1 competitor_avg⟩
  ⟨scores, getRecommendations scores business top_competitor_name, gradeOf total,
    ⟨35, 30, 10, 16, 4, 6⟩⟩

/-- `own = max(own_review_count, 1)` in `_filter_local_competitors`. -/
def fOwn (own_review_count : ℤ) : ℤ := max own_review_count 1

/-- `cap = max(own * 25, 300)` in `_filter_local_competitors`. -/
def fCap (own : ℤ) : ℤ := max (own * 25) 300

/-- `local.sort(key=lambda c: c["review_count"], reverse=True)`: stable
descending order on the review count. -/
def descByReviews (a b : Competitor) : Prop := b.review_count ≤ a.review_count

instance : DecidableRel descByReviews :=
  fun a b => decidable_of_iff (b.review_count ≤ a.review_count) Iff.rfl

instance : IsTotal Competitor descByReviews := ⟨fun a b => le_total _ _⟩

instance : IsTrans Competitor descByReviews := ⟨fun _ _ _ hab hbc => le_trans hbc hab⟩

/-- `sorted(candidates, key=lambda c: abs(c["review_count"] - own))`:
stable ascending order on the distance of the review count from `own`. -/
def byDistance (own : ℤ) (a b : Competitor) : Prop :=
  |a.review_count - own| ≤ |b.review_count - own|

instance (own : ℤ) : DecidableRel (byDistance own) :=
  fun a b => decidable_of_iff (|a.review_count - own| ≤ |b.review_count - own|) Iff.rfl

instance (own : ℤ) : IsTotal Competitor (byDistance own) := ⟨fun _ _ => le_total _ _⟩

instance (own : ℤ) : IsTrans Competitor (byDistance own) := ⟨fun _ _ _ => le_trans⟩

/-- `_filter_local_competitors` from `src/utils/places_api.py`. -/
def filterLocalCompetitors (candidates : List Competitor) (own_review_count : ℤ)
    (want : ℕ) : List Competitor :=
  let own := fOwn own_review_count
  let cap := fCap own
  let loc := (candidates.filter fun c => c.review_count ≤ cap).insertionSort descByReviews
  if 2 ≤ loc.length then loc.take want
  else (candidates.insertionSort (byDistance own)).take want

/-! ### Arithmetic facts about the rounding model -/

lemma pyRound_intCast (m : ℤ) : pyRound (m : ℚ) = m := by
  unfold pyRound
  rw [Int.floor_intCast]
  norm_num

lemma round1_intCast (m : ℤ) : round1 (m : ℚ) = m := by
  unfold round1
  have h : ((m : ℚ)) * 10 = ((m * 10 : ℤ) : ℚ) := by push_cast; ring
  rw [h, pyRound_intCast]
  push_cast
  ring

lemma round1_half (m : ℤ) : round1 ((m : ℚ) / 2) = (m : ℚ) / 2 := by
  unfold round1
  have h : ((m : ℚ)) / 2 * 10 = ((m * 5 : ℤ) : ℚ) := by push_cast; ring
  rw [h, pyRound_intCast]
  push_cast
  ring

lemma pyRound_nonneg {q : ℚ} (h : 0 ≤ q) : 0 ≤ pyRound q := by
  unfold pyRound
  have h0 : (0 : ℤ) ≤ ⌊q⌋ := Int.floor_nonneg.mpr h
  split_ifs <;> omega

lemma round1_nonneg {q : ℚ} (h : 0 ≤ q) : 0 ≤ round1 q := by
  unfold round1
  have h1 : (0 : ℚ) ≤ (pyRound (q * 10) : ℚ) := by
    exact_mod_cast pyRound_nonneg (by positivity)
  positivity

lemma pyTrunc_of_nonneg {q : ℚ} (h : 0 ≤ q) : pyTrunc q = ⌊q⌋ := if_pos h

/-! ### Facts about the individual sub-scores -/

lemma ratingScore_nonneg {x : ℚ} (h : 0 ≤ x) : 0 ≤ ratingScore x := by
  unfold ratingScore
  split_ifs with h0
  · exact le_refl 0
  · have hmin : (0 : ℚ) ≤ min x 5 := le_min h (by norm_num)
    exact round1_nonneg (by positivity)

lemma reviewsScore_nonneg (n : ℤ) (avg : ℚ) : 0 ≤ reviewsScore n avg := by
  unfold reviewsScore
  split_ifs <;> norm_num

lemma photosScore_nonneg {pc : ℤ} (h : 0 ≤ pc) : 0 ≤ photosScore pc := by
  unfold photosScore
  have hpc : (0 : ℚ) ≤ (pc : ℚ) := by exact_mod_cast h
  have hmin : (0 : ℚ) ≤ min ((pc : ℚ) / 10) 1 := le_min (by positivity) (by norm_num)
  exact round1_nonneg (by positivity)

lemma completenessScore_nonneg (a b c d : Bool) : 0 ≤ (completenessScore a b c d).1 := by
  unfold completenessScore
  dsimp only
  split_ifs <;> norm_num

lemma descriptionScore_nonneg (b : Bool) : 0 ≤ descriptionScore b := by
  unfold descriptionScore
  norm_num

lemma responseRateScore_nonneg {a b : ℤ} (ha : 0 ≤ a) (hab : a ≤ b) :
    0 ≤ responseRateScore a b := by
  unfold responseRateScore
  split_ifs with h0
  · exact le_refl 0
  · have hb : (0 : ℚ) < (b : ℚ) := by
      have : 0 < b := by omega
      exact_mod_cast this
    have ha' : (0 : ℚ) ≤ (a : ℚ) := by exact_mod_cast ha
    exact round1_nonneg (by positivity)

/-- The photos sub-score can never reach 12: it is at most 10. -/
lemma photosScore_lt_twelve (pc : ℤ) : photosScore pc < 12 := by
  unfold photosScore
  rcases le_or_lt 10 pc with h | h
  · have hmin : min ((pc : ℚ) / 10) 1 = 1 := by
      refine min_eq_right ?_
      rw [le_div_iff₀ (by norm_num)]
      norm_num
      exact_mod_cast h
    rw [hmin]
    have h10 : (1 : ℚ) * 10 = ((10 : ℤ) : ℚ) := by norm_num
    rw [h10, round1_intCast]
    norm_num
  · have hmin : min ((pc : ℚ) / 10) 1 = (pc : ℚ) / 10 := by
      refine min_eq_left ?_
      rw [div_le_one (by norm_num)]
      exact_mod_cast le_of_lt (by omega : pc < 10)
    rw [hmin]
    have hx : (pc : ℚ) / 10 * 10 = ((pc : ℤ) : ℚ) := by field_simp
    rw [hx, round1_intCast]
    exact_mod_cast (by omega : pc < 12)

/-! ### The grade step function -/

lemma gradeOf_eq_A_iff (t : ℤ) : gradeOf t = "A" ↔ 85 ≤ t := by
  unfold gradeOf
  split_ifs <;> first
    | exact iff_of_true rfl (by omega)
    | exact iff_of_false (by decide) (by omega)

lemma gradeOf_eq_B_iff (t : ℤ) : gradeOf t = "B" ↔ 70 ≤ t ∧ t < 85 := by
  unfold gradeOf
  split_ifs <;> first
    | exact iff_of_true rfl (by omega)
    | exact iff_of_false (by decide) (by omega)

lemma gradeOf_eq_C_iff (t : ℤ) : gradeOf t = "C" ↔ 55 ≤ t ∧ t < 70 := by
  unfold gradeOf
  split_ifs <;> first
    | exact iff_of_true rfl (by omega)
    | exact iff_of_false (by decide) (by omega)

lemma gradeOf_eq_D_iff (t : ℤ) : gradeOf t = "D" ↔ 40 ≤ t ∧ t < 55 := by
  unfold gradeOf
  split_ifs <;> first
    | exact iff_of_true rfl (by omega)
    | exact iff_of_false (by decide) (by omega)

lemma gradeOf_eq_F_iff (t : ℤ) : gradeOf t = "F" ↔ t < 40 := by
  unfold gradeOf
  split_ifs <;> first
    | exact iff_of_true rfl (by omega)
    | exact iff_of_false (by decide) (by omega)

/-- A business dict in which every optional field has been replaced by the
explicit zero/false default the engine would substitute for it. -/
def withDefaults (b : Business) : Business :=
  ⟨some (b.rating.getD 0), some (b.review_count.getD 0), some (b.photo_count.getD 0),
   some (b.has_website.getD false), some (b.has_phone.getD false),
   some (b.has_hours.getD false), some (b.has_specific_categories.getD false),
   some (b.has_description.getD false), some (b.reviews_responded.getD 0),
   some (b.reviews_returned.getD 0)⟩

/-- C1: the six per-metric maxima echoed in `max_scores` sum to 101, not
100, on every invocation (the completeness maximum is 16 because
`has_specific_categories` is awarded 4 points, although the function's
own docstring gives it 3 and the module header says the score is out of
100). -/
theorem C1_max_scores_sum_is_101 (b : Business) (c : List Competitor) (t : Option String) :
    (calculateScore b c t).max_scores.rating_score +
      (calculateScore b c t).max_scores.reviews_score +
      (calculateScore b c t).max_scores.photos_score +
      (calculateScore b c t).max_scores.completeness_score +
      (calculateScore b c t).max_scores.description_score +
      (calculateScore b c t).max_scores.response_score = 101 ∧
    (calculateScore b c t).max_scores = ⟨35, 30, 10, 16, 4, 6⟩ :=
  ⟨rfl, rfl⟩

/-- C7: the reviews sub-score does not depend on the competitor data: two
runs of `calculate_score` on the same business but arbitrary different
competitor lists agree on `reviews_score`, because `_reviews_score`
ignores its `competitor_avg` parameter. -/
theorem C7_reviews_score_independent_of_competitors (b : Business)
    (c₁ c₂ : List Competitor) (t : Option String) :
    (calculateScore b c₁ t).reviews_score = (calculateScore b c₂ t).reviews_score ∧
    ∀ (n : ℤ) (avg₁ avg₂ : ℚ), reviewsScore n avg₁ = reviewsScore n avg₂ :=
  ⟨rfl, fun _ _ _ => rfl⟩

/-- A raw competitor dict as it reaches `calculate_score`, before the
mandatory read: the `review_count` key may be absent. -/
structure RawCompetitor where
  name : String
  review_count : Option ℤ
deriving DecidableEq

/-- Evaluation of the generator at line 167,
`(c["review_count"] for c in competitors if c["review_count"])`, over the
raw dicts: the mandatory indexing `c["review_count"]` raises `KeyError`
at the first competitor whose key is absent; otherwise it realizes the
records, which the rest of `calculate_score` consumes. -/
def readCompetitors : List RawCompetitor → Except String (List Competitor)
  | [] => Except.ok []
  | c :: cs =>
    match c.review_count with
    | none => Except.error "KeyError"
    | some n =>
      match readCompetitors cs with
      | Except.error e => Except.error e
      | Except.ok rest => Except.ok (⟨c.name, n⟩ :: rest)

/-- `calculate_score` over raw competitor dicts: the competitor list is
touched only by the line-167 generator, whose mandatory key reads can
raise; everything else is the total computation. -/
def calculateScoreRaw (business : Business) (competitors : List RawCompetitor)
    (top_competitor_name : Option String) : Except String ScoreResult :=
  match readCompetitors competitors with
  | Except.error e => Except.error e
  | Except.ok cs => Except.ok (calculateScore business cs top_competitor_name)

lemma readCompetitors_ok (rcs : List RawCompetitor) (h : ∀ r ∈ rcs, r.review_count ≠ none) :
    readCompetitors rcs =
      Except.ok (rcs.map fun r => (⟨r.name, r.review_count.getD 0⟩ : Competitor)) := by
  induction rcs with
  | nil => rfl
  | cons r rs ih =>
    obtain ⟨n, hn⟩ := Option.ne_none_iff_exists'.mp (h r (List.mem_cons_self r rs))
    simp [readCompetitors, hn, ih (fun x hx => h x (List.mem_cons_of_mem r hx))]

lemma readCompetitors_err (rcs : List RawCompetitor) (h : ∃ r ∈ rcs, r.review_count = none) :
    readCompetitors rcs = Except.error "KeyError" := by
  induction rcs with
  | nil => exact absurd h (by simp)
  | cons r rs ih =>
    rcases h with ⟨x, hx, hxn⟩
    rcases List.mem_cons.mp hx with rfl | hmem
    · simp [readCompetitors, hxn]
    · cases hr : r.review_count with
      | none => simp [readCompetitors, hr]
      | some n => simp [readCompetitors, hr, ih ⟨x, hmem, hxn⟩]

/-- C8 counterexample: the claim says `calculate_score` never raises when
an optional field is absent, `review_count` included; but a competitor
dict without the `review_count` key makes the line-167 generator's
mandatory indexing raise `KeyError` instead of returning a result. -/
theorem C8_counterexample :
    calculateScoreRaw emptyBusiness [⟨"a", none⟩] none = Except.error "KeyError" := rfl

/-- C8 (amended): over absent *business* fields the engine is total and
substitutes the zero/false defaults (scoring any business dict equals
scoring it with the defaults filled in explicitly); over competitor
records the `review_count` key is mandatory: when every record carries
it, `calculate_score` returns the ScoreResult of the realized records,
and a single record with the key absent raises `KeyError`. -/
theorem C8_business_defaults_competitor_key_mandatory :
    (∀ (b : Business) (c : List Competitor) (t : Option String),
      calculateScore b c t = calculateScore (withDefaults b) c t) ∧
    (∀ (b : Business) (rcs : List RawCompetitor) (t : Option String),
      (∀ r ∈ rcs, r.review_count ≠ none) →
      calculateScoreRaw b rcs t = Except.ok
        (calculateScore b (rcs.map fun r => (⟨r.name, r.review_count.getD 0⟩ : Competitor)) t)) ∧
    (∀ (b : Business) (rcs : List RawCompetitor) (t : Option String),
      (∃ r ∈ rcs, r.review_count = none) →
      calculateScoreRaw b rcs t = Except.error "KeyError") := by
  refine ⟨fun b c t => rfl, ?_, ?_⟩
  · intro b rcs t h
    unfold calculateScoreRaw
    rw [readCompetitors_ok rcs h]
  · intro b rcs t h
    unfold calculateScoreRaw
    rw [readCompetitors_err rcs h]

/-- Witness for the amended C8 at concrete inputs: a fully-keyed
competitor succeeds, an unkeyed one raises. -/
theorem C8_business_defaults_competitor_key_mandatory_witness :
    calculateScoreRaw emptyBusiness [⟨"a", some 7⟩] none =
      Except.ok (calculateScore emptyBusiness [⟨"a", 7⟩] none) ∧
    calculateScoreRaw emptyBusiness [⟨"b", none⟩] none = Except.error "KeyError" :=
  ⟨C8_business_defaults_competitor_key_mandatory.2.1 emptyBusiness [⟨"a", some 7⟩] none
     (by decide),
   C8_business_defaults_competitor_key_mandatory.2.2 emptyBusiness [⟨"b", none⟩] none
     ⟨⟨"b", none⟩, List.mem_singleton.mpr rfl, rfl⟩⟩

set_option maxHeartbeats 1600000 in
/-- C5: the reviews sub-score is the exact step function of the review
count alone, with the documented thresholds, it is monotonic
non-decreasing, and it takes the documented boundary values. -/
theorem C5_reviews_step_function :
    (∀ (n : ℤ) (avg : ℚ), 200 ≤ n → reviewsScore n avg = 30) ∧
    (∀ (n : ℤ) (avg : ℚ), 100 ≤ n → n < 200 → reviewsScore n avg = 26) ∧
    (∀ (n : ℤ) (avg : ℚ), 50 ≤ n → n < 100 → reviewsScore n avg = 21) ∧
    (∀ (n : ℤ) (avg : ℚ), 30 ≤ n → n < 50 → reviewsScore n avg = 17) ∧
    (∀ (n : ℤ) (avg : ℚ), 20 ≤ n → n < 30 → reviewsScore n avg = 12) ∧
    (∀ (n : ℤ) (avg : ℚ), 10 ≤ n → n < 20 → reviewsScore n avg = 7) ∧
    (∀ (n : ℤ) (avg : ℚ), 1 ≤ n → n < 10 → reviewsScore n avg = 3) ∧
    (∀ (n : ℤ) (avg : ℚ), n < 1 → reviewsScore n avg = 0) ∧
    (∀ (a b : ℤ) (avg : ℚ), a ≤ b → reviewsScore a avg ≤ reviewsScore b avg) ∧
    reviewsScore 199 0 = 26 ∧ reviewsScore 200 0 = 30 ∧ reviewsScore 99 0 = 21 ∧
    reviewsScore 100 0 = 26 ∧ reviewsScore 1 0 = 3 ∧ reviewsScore 0 0 = 0 := by
  refine ⟨?_, ?_, ?_, ?_, ?_, ?_, ?_, ?_, ?_, ?_, ?_, ?_, ?_, ?_, ?_⟩
  · intro n avg h
    unfold reviewsScore
    rw [if_pos h]
  · intro n avg h1 h2
    unfold reviewsScore
    rw [if_neg (by omega), if_pos h1]
  · intro n avg h1 h2
    unfold reviewsScore
    rw [if_neg (by omega), if_neg (by omega), if_pos h1]
  · intro n avg h1 h2
    unfold reviewsScore
    rw [if_neg (by omega), if_neg (by omega), if_neg (by omega), if_pos h1]
  · intro n avg h1 h2
    unfold reviewsScore
    rw [if_neg (by omega), if_neg (by omega), if_neg (by omega), if_neg (by omega), if_pos h1]
  · intro n avg h1 h2
    unfold reviewsScore
    rw [if_neg (by omega), if_neg (by omega), if_neg (by omega), if_neg (by omega),
      if_neg (by omega), if_pos h1]
  · intro n avg h1 h2
    unfold reviewsScore
    rw [if_neg (by omega), if_neg (by omega), if_neg (by omega), if_neg (by omega),
      if_neg (by omega), if_neg (by omega), if_pos h1]
  · intro n avg h1
    unfold reviewsScore
    rw [if_neg (by omega), if_neg (by omega), if_neg (by omega), if_neg (by omega),
      if_neg (by omega), if_neg (by omega), if_neg (by omega)]
  · intro a b avg hab
    unfold reviewsScore
    split_ifs <;> norm_num <;> omega
  · decide
  · decide
  · decide
  · decide
  · decide
  · decide

/-- Witness for C5 at concrete inputs. -/
theorem C5_reviews_step_function_witness :
    reviewsScore 150 0 = 26 ∧ reviewsScore 5 0 ≤ reviewsScore 100 0 :=
  ⟨C5_reviews_step_function.2.1 150 0 (by decide) (by decide),
   (C5_reviews_step_function.2.2.2.2.2.2.2.2.1) 5 100 0 (by decide)⟩

/-- C6: over the documented input domain (non-negative rating and photo
count, `0 ≤ responded ≤ returned`), the `total` field is the floor of the
sum of the six sub-scores clamped to `[0, 100]`, and the `grade` field is
the pure step function of `total` with boundaries 85/70/55/40 (so 69→C,
70→B, 84→B, 85→A). -/
theorem C6_total_clamp_and_grade (b : Business) (c : List Competitor) (t : Option String)
    (hrating : 0 ≤ b.rating.getD 0) (hphoto : 0 ≤ b.photo_count.getD 0)
    (hresp : 0 ≤ b.reviews_responded.getD 0)
    (hresp' : b.reviews_responded.getD 0 ≤ b.reviews_returned.getD 0) :
    (calculateScore b c t).total =
      max 0 (min ⌊(calculateScore b c t).rating_score + (calculateScore b c t).reviews_score +
        (calculateScore b c t).photos_score + (calculateScore b c t).completeness_score +
        (calculateScore b c t).description_score + (calculateScore b c t).response_score⌋ 100) ∧
    ((calculateScore b c t).grade = "A" ↔ 85 ≤ (calculateScore b c t).total) ∧
    ((calculateScore b c t).grade = "B" ↔
      70 ≤ (calculateScore b c t).total ∧ (calculateScore b c t).total < 85) ∧
    ((calculateScore b c t).grade = "C" ↔
      55 ≤ (calculateScore b c t).total ∧ (calculateScore b c t).total < 70) ∧
    ((calculateScore b c t).grade = "D" ↔
      40 ≤ (calculateScore b c t).total ∧ (calculateScore b c t).total < 55) ∧
    ((calculateScore b c t).grade = "F" ↔ (calculateScore b c t).total < 40) ∧
    gradeOf 69 = "C" ∧ gradeOf 70 = "B" ∧ gradeOf 84 = "B" ∧ gradeOf 85 = "A" := by
  have h1 : 0 ≤ (calculateScore b c t).rating_score := ratingScore_nonneg hrating
  have h2 : 0 ≤ (calculateScore b c t).reviews_score :=
    reviewsScore_nonneg (b.review_count.getD 0) (competitorAvg c)
  have h3 : 0 ≤ (calculateScore b c t).photos_score := photosScore_nonneg hphoto
  have h4 : 0 ≤ (calculateScore b c t).completeness_score := completenessScore_nonneg _ _ _ _
  have h5 : 0 ≤ (calculateScore b c t).description_score :=
    descriptionScore_nonneg (b.has_description.getD false)
  have h6 : 0 ≤ (calculateScore b c t).response_score := responseRateScore_nonneg hresp hresp'
  have hS : 0 ≤ (calculateScore b c t).rating_score + (calculateScore b c t).reviews_score +
      (calculateScore b c t).photos_score + (calculateScore b c t).completeness_score +
      (calculateScore b c t).description_score + (calculateScore b c t).response_score := by
    have := add_nonneg (add_nonneg (add_nonneg (add_nonneg (add_nonneg h1 h2) h3) h4) h5) h6
    exact this
  have etotal : (calculateScore b c t).total =
      min (pyTrunc ((calculateScore b c t).rating_score + (calculateScore b c t).reviews_score +
        (calculateScore b c t).photos_score + (calculateScore b c t).completeness_score +
        (calculateScore b c t).description_score + (calculateScore b c t).response_score)) 100 := rfl
  have egrade : (calculateScore b c t).grade = gradeOf ((calculateScore b c t).total) := rfl
  refine ⟨?_, ?_, ?_, ?_, ?_, ?_, by decide, by decide, by decide, by decide⟩
  · rw [etotal, pyTrunc_of_nonneg hS]
    have hX : (0 : ℤ) ≤ min ⌊(calculateScore b c t).rating_score +
        (calculateScore b c t).reviews_score + (calculateScore b c t).photos_score +
        (calculateScore b c t).completeness_score + (calculateScore b c t).description_score +
        (calculateScore b c t).response_score⌋ 100 :=
      le_min (Int.floor_nonneg.mpr hS) (by norm_num)
    rw [max_eq_right hX]
  · rw [egrade]; exact gradeOf_eq_A_iff _
  · rw [egrade]; exact gradeOf_eq_B_iff _
  · rw [egrade]; exact gradeOf_eq_C_iff _
  · rw [egrade]; exact gradeOf_eq_D_iff _
  · rw [egrade]; exact gradeOf_eq_F_iff _

/-- Witness for C6 at a concrete input (the all-defaults business with no
competitors). -/
theorem C6_total_clamp_and_grade_witness : gradeOf 69 = "C" ∧ gradeOf 85 = "A" :=
  ⟨(C6_total_clamp_and_grade emptyBusiness [] none (by decide) (by decide) (by decide)
      (by decide)).2.2.2.2.2.2.1,
   (C6_total_clamp_and_grade emptyBusiness [] none (by decide) (by decide) (by decide)
      (by decide)).2.2.2.2.2.2.2.2.2⟩

/-! ### Distinguishing recommendation strings -/

/-- The second-to-last character of a string, if any. -/
def strPenult (s : String) : Option Char := s.data.reverse[1]?

lemma strPenult_append (a b : String) (h : 2 ≤ b.data.length) :
    strPenult (a ++ b) = strPenult b := by
  unfold strPenult
  have hd : (a ++ b).data = a.data ++ b.data := by simp [String.data_append]
  rw [hd, List.reverse_append]
  rw [show (b.data.reverse ++ a.data.reverse)[1]? = b.data.reverse[1]? from
    List.getElem?_append_left (by simpa using h)]

lemma rating_tip_ne_fallback (rival : String) : rating_tip rival ≠ fallback_tip := by
  intro h
  have hp := congrArg strPenult h
  rw [show rating_tip rival = ("Du förlorar kunder till " ++ rival) ++
    " varje dag på grund av ditt betyg — det är det första potentiella kunder ser. Här är hur du fixar det på 48 timmar: skicka ett enkelt SMS till dina senaste 20 kunder och be om en ärlig recension. Svara på all negativ feedback professionellt inom 24 timmar."
    from rfl, strPenult_append _ _ (by decide)] at hp
  revert hp
  decide

lemma reviews_tip_ne_fallback (rival : String) : reviews_tip rival ≠ fallback_tip := by
  intro h
  have hp := congrArg strPenult h
  rw [show reviews_tip rival = rival ++
    " dominerar sökresultaten delvis för att de har fler recensioner än dig. Recensioner är den starkaste synlighetssignalen på Google. Sätt upp ett automatiskt uppföljningsmeddelande efter varje avslutat jobb — det tar 10 minuter att bygga och genererar recensioner på autopilot."
    from rfl, strPenult_append _ _ (by decide)] at hp
  revert hp
  decide

lemma website_tip_ne_fallback (rival : String) : website_tip rival ≠ fallback_tip := by
  intro h
  have hp := congrArg strPenult h
  rw [show website_tip rival = ("Du har ingen webbplats kopplad till din Google-profil. " ++ rival) ++
    " har det. Google belönar kompletta profiler med bättre placeringar — lägg till din webbadress direkt i Google Business-profilen."
    from rfl, strPenult_append _ _ (by decide)] at hp
  revert hp
  decide

lemma mem_ite_cons_nil {P : Prop} [Decidable P] {x a : String}
    (h : x ∈ (if P then [a] else ([] : List String))) : x = a := by
  by_cases hP : P
  · rw [if_pos hP] at h
    exact List.mem_singleton.mp h
  · rw [if_neg hP] at h
    cases h

lemma mem_ite_nil_cons {P : Prop} [Decidable P] {x a : String}
    (h : x ∈ (if P then ([] : List String) else [a])) : x = a := by
  by_cases hP : P
  · rw [if_pos hP] at h
    cases h
  · rw [if_neg hP] at h
    exact List.mem_singleton.mp h

/-- When the photo rule fires and the description rule does not, the photo
tip is in the output and the fallback message is not. -/
lemma getRecommendations_photo_mem (sc : Scores) (b : Business) (t : Option String)
    (hphoto : sc.photos_score < 12) (hdesc : ¬ sc.description_score = 0) :
    photos_tip ∈ getRecommendations sc b t ∧ fallback_tip ∉ getRecommendations sc b t := by
  simp only [getRecommendations]
  rw [if_pos hphoto, if_neg hdesc]
  have hmem : photos_tip ∈
      (if sc.rating_score < 15 then [rating_tip (rivalOf t)] else []) ++
      (if sc.reviews_score < 17 then [reviews_tip (rivalOf t)] else []) ++
      [photos_tip] ++
      (if sc.completeness_breakdown.has_website then [] else [website_tip (rivalOf t)]) ++
      (if sc.completeness_breakdown.has_phone then [] else [phone_tip]) ++
      (if sc.completeness_breakdown.has_hours then [] else [hours_tip]) ++
      (if sc.completeness_breakdown.has_specific_categories then [] else [categories_tip]) ++
      ([] : List String) ++
      (if sc.response_score < 3 then [response_tip] else []) := by
    simp [List.mem_append]
  rw [if_neg (fun hemp => List.ne_nil_of_mem hmem (List.isEmpty_iff.mp hemp))]
  refine ⟨hmem, ?_⟩
  intro hx
  simp only [List.mem_append] at hx
  rcases hx with ((((((((h | h) | h) | h) | h) | h) | h) | h) | h)
  · exact rating_tip_ne_fallback (rivalOf t) (mem_ite_cons_nil h).symm
  · exact reviews_tip_ne_fallback (rivalOf t) (mem_ite_cons_nil h).symm
  · exact absurd (List.mem_singleton.mp h) (by decide)
  · exact website_tip_ne_fallback (rivalOf t) (mem_ite_nil_cons h).symm
  · exact absurd (mem_ite_nil_cons h) (by decide)
  · exact absurd (mem_ite_nil_cons h) (by decide)
  · exact absurd (mem_ite_nil_cons h) (by decide)
  · cases h
  · exact absurd (mem_ite_cons_nil h) (by decide)

/-- When no rule fires, the output is exactly the fallback message. -/
lemma getRecommendations_all_pass (sc : Scores) (b : Business) (t : Option String)
    (h1 : 15 ≤ sc.rating_score) (h2 : 17 ≤ sc.reviews_score) (h3 : 12 ≤ sc.photos_score)
    (h4 : sc.completeness_breakdown.has_website = true)
    (h5 : sc.completeness_breakdown.has_phone = true)
    (h6 : sc.completeness_breakdown.has_hours = true)
    (h7 : sc.completeness_breakdown.has_specific_categories = true)
    (h8 : ¬ sc.description_score = 0) (h9 : 3 ≤ sc.response_score) :
    getRecommendations sc b t = [fallback_tip] := by
  simp only [getRecommendations]
  rw [if_neg (not_lt.mpr h1), if_neg (not_lt.mpr h2), if_neg (not_lt.mpr h3),
    if_pos h4, if_pos h5, if_pos h6, if_pos h7, if_neg h8, if_neg (not_lt.mpr h9)]
  rfl

lemma ite_isEmpty_ne_nil (l : List String) :
    (if l.isEmpty then [fallback_tip] else l) ≠ [] := by
  cases l with
  | nil => simp
  | cons x xs => simp

/-- The recommendation list is never empty. -/
lemma getRecommendations_ne_nil (sc : Scores) (b : Business) (t : Option String) :
    getRecommendations sc b t ≠ [] := by
  simp only [getRecommendations]
  exact ite_isEmpty_ne_nil _

/-- C3: the recommendations list of `calculate_score` is never empty; and
whenever every rule threshold is comfortably exceeded (`rating_score ≥ 15`,
`reviews_score ≥ 17`, `photos_score ≥ 12`, `description_score > 0`,
`response_score ≥ 3`) and all four completeness flags are true, the rule
engine `_get_recommendations` emits exactly the single
positive-reinforcement fallback message. -/
theorem C3_recommendations_nonempty_and_fallback :
    (∀ (b : Business) (c : List Competitor) (t : Option String),
      (calculateScore b c t).recommendations ≠ []) ∧
    (∀ (sc : Scores) (b : Business) (t : Option String),
      15 ≤ sc.rating_score → 17 ≤ sc.reviews_score → 12 ≤ sc.photos_score →
      0 < sc.description_score → 3 ≤ sc.response_score →
      sc.completeness_breakdown.has_website = true →
      sc.completeness_breakdown.has_phone = true →
      sc.completeness_breakdown.has_hours = true →
      sc.completeness_breakdown.has_specific_categories = true →
      getRecommendations sc b t = [fallback_tip]) := by
  constructor
  · intro b c t
    have e : (calculateScore b c t).recommendations =
        getRecommendations (calculateScore b c t).toScores b t := rfl
    rw [e]
    exact getRecommendations_ne_nil _ _ _
  · intro sc b t h1 h2 h3 hd h9 w p hh cat
    exact getRecommendations_all_pass sc b t h1 h2 h3 w p hh cat (ne_of_gt hd) h9

/-- Witness for C3 at concrete inputs. -/
theorem C3_recommendations_witness :
    (calculateScore emptyBusiness [] none).recommendations ≠ [] ∧
    getRecommendations ⟨100, 100, 100, 100, 16, ⟨true, true, true, true⟩, 4, 6, 0⟩
      emptyBusiness none = [fallback_tip] :=
  ⟨C3_recommendations_nonempty_and_fallback.1 emptyBusiness [] none,
   C3_recommendations_nonempty_and_fallback.2
     ⟨100, 100, 100, 100, 16, ⟨true, true, true, true⟩, 4, 6, 0⟩ emptyBusiness none
     (by decide) (by decide) (by decide) (by decide) (by decide) rfl rfl rfl rfl⟩

/-- C9: the photos sub-score is capped at 10, so the photo-upload
recommendation fires on every input, and consequently the fallback
message never appears in any `calculate_score` result. -/
theorem C9_photo_tip_always_fallback_never (b : Business) (c : List Competitor)
    (t : Option String) :
    photos_tip ∈ (calculateScore b c t).recommendations ∧
    fallback_tip ∉ (calculateScore b c t).recommendations := by
  have e : (calculateScore b c t).recommendations =
      getRecommendations (calculateScore b c t).toScores b t := rfl
  have ephoto : (calculateScore b c t).toScores.photos_score =
      photosScore (b.photo_count.getD 0) := rfl
  have edesc : (calculateScore b c t).toScores.description_score = 4 := rfl
  rw [e]
  refine getRecommendations_photo_mem _ _ _ ?_ ?_
  · rw [ephoto]
    exact photosScore_lt_twelve _
  · rw [edesc]
    norm_num

/-- Spec-side definition, following the specification's words: the median
of a sequence of counts — the middle element of the sorted sequence for an
odd length, the average of the two middle elements for an even length, and
0 for the empty sequence. -/
def specMedian (counts : List ℤ) : ℚ :=
  if (counts.insertionSort (fun a b => a ≤ b)).isEmpty then 0
  else if (counts.insertionSort (fun a b => a ≤ b)).length % 2 = 1 then
    ((counts.insertionSort (fun a b => a ≤ b)).getD
      ((counts.insertionSort (fun a b => a ≤ b)).length / 2) 0 : ℚ)
  else (((counts.insertionSort (fun a b => a ≤ b)).getD
      ((counts.insertionSort (fun a b => a ≤ b)).length / 2 - 1) 0 : ℚ) +
    ((counts.insertionSort (fun a b => a ≤ b)).getD
      ((counts.insertionSort (fun a b => a ≤ b)).length / 2) 0 : ℚ)) / 2

/-- A median is always an integer or a half-integer, so Python's
one-decimal rounding leaves it unchanged. -/
lemma round1_specMedian (counts : List ℤ) : round1 (specMedian counts) = specMedian counts := by
  unfold specMedian
  split_ifs
  · rw [show (0 : ℚ) = ((0 : ℤ) : ℚ) from by norm_num, round1_intCast]
  · rw [round1_intCast]
  · rw [show ((((counts.insertionSort (fun a b => a ≤ b)).getD
        ((counts.insertionSort (fun a b => a ≤ b)).length / 2 - 1) 0 : ℤ) : ℚ) +
        (((counts.insertionSort (fun a b => a ≤ b)).getD
        ((counts.insertionSort (fun a b => a ≤ b)).length / 2) 0 : ℤ) : ℚ)) =
        ((((counts.insertionSort (fun a b => a ≤ b)).getD
        ((counts.insertionSort (fun a b => a ≤ b)).length / 2 - 1) 0 : ℤ) +
        ((counts.insertionSort (fun a b => a ≤ b)).getD
        ((counts.insertionSort (fun a b => a ≤ b)).length / 2) 0 : ℤ) : ℤ) : ℚ)
      from by push_cast; ring, round1_half]

/-- C2 counterexample: with competitor review counts `[0, 10, 20]` the
claim as stated fails — the median of the competitors' review counts is
10, but the code first drops the zero (falsy) count and reports 15. -/
theorem C2_counterexample :
    (calculateScore emptyBusiness [⟨"a", 0⟩, ⟨"b", 10⟩, ⟨"c", 20⟩] none).competitor_avg_reviews = 15 ∧
    specMedian [0, 10, 20] = 10 ∧ (15 : ℚ) ≠ 10 := by
  refine ⟨?_, ?_, by norm_num⟩
  · have e : (calculateScore emptyBusiness [⟨"a", 0⟩, ⟨"b", 10⟩, ⟨"c", 20⟩] none).competitor_avg_reviews =
        round1 (competitorAvg [⟨"a", 0⟩, ⟨"b", 10⟩, ⟨"c", 20⟩]) := rfl
    have ev : competitorAvg [⟨"a", 0⟩, ⟨"b", 10⟩, ⟨"c", 20⟩] = ((30 : ℤ) : ℚ) / 2 := by
      simp [competitorAvg, List.insertionSort, List.orderedInsert, List.getD]
      norm_num
    rw [e, ev, round1_half]
    norm_num
  · simp [specMedian, List.insertionSort, List.orderedInsert, List.getD]

/-- C2 (amended): `competitor_avg_reviews` is the median of the
competitors' *non-zero* review counts (the generator drops falsy counts),
0 when no competitor has a non-zero count; the spec's examples
[10,20,30] → 20, [10,20] → 15, [] → 0 all hold. -/
theorem C2_competitor_avg_is_median_of_nonzero (b : Business) (comps : List Competitor)
    (t : Option String) :
    (calculateScore b comps t).competitor_avg_reviews =
      specMedian ((comps.filter fun c => c.review_count ≠ 0).map fun c => c.review_count) ∧
    (calculateScore b [⟨"a", 10⟩, ⟨"b", 20⟩, ⟨"c", 30⟩] t).competitor_avg_reviews = 20 ∧
    (calculateScore b [⟨"a", 10⟩, ⟨"b", 20⟩] t).competitor_avg_reviews = 15 ∧
    (calculateScore b [] t).competitor_avg_reviews = 0 := by
  have key : ∀ cs : List Competitor, (calculateScore b cs t).competitor_avg_reviews =
      specMedian ((cs.filter fun c => c.review_count ≠ 0).map fun c => c.review_count) := by
    intro cs
    have e : (calculateScore b cs t).competitor_avg_reviews =
        round1 (competitorAvg cs) := rfl
    have e2 : competitorAvg cs =
        specMedian ((cs.filter fun c => c.review_count ≠ 0).map fun c => c.review_count) := rfl
    rw [e, e2, round1_specMedian]
  refine ⟨key comps, ?_, ?_, ?_⟩
  · rw [key [⟨"a", 10⟩, ⟨"b", 20⟩, ⟨"c", 30⟩]]
    simp [specMedian, List.insertionSort, List.orderedInsert, List.getD]
  · rw [key [⟨"a", 10⟩, ⟨"b", 20⟩]]
    simp [specMedian, List.insertionSort, List.orderedInsert, List.getD]
    norm_num
  · rw [key []]
    simp [specMedian, List.insertionSort]

/-! ### Stability of the modelled sorts

A stable sort is characterised by: the output is sorted, and for every
key value the sublist of elements carrying that key is exactly the one of
the input (same elements, same order). The lemmas below establish the
second half for `List.insertionSort` whenever the order relation separates
distinct keys. -/

lemma filter_key_orderedInsert {α : Type} (key : α → ℤ) (r : α → α → Prop) [DecidableRel r]
    (hk : ∀ x y, ¬ r x y → key x ≠ key y) (a : α) (k : ℤ) (l : List α) :
    (l.orderedInsert r a).filter (fun c => key c == k) =
      if key a = k then a :: l.filter (fun c => key c == k)
      else l.filter (fun c => key c == k) := by
  induction l with
  | nil =>
    by_cases h : key a = k <;> simp [List.orderedInsert, h]
  | cons b l ih =>
    rw [List.orderedInsert]
    by_cases hab : r a b
    · rw [if_pos hab]
      by_cases hak : key a = k <;> simp [List.filter_cons, hak]
    · rw [if_neg hab]
      have hne : key a ≠ key b := hk a b hab
      rw [List.filter_cons, ih]
      by_cases hak : key a = k
      · have hbk : ¬ (key b = k) := fun h => hne (hak ▸ h.symm ▸ rfl)
        simp [hak, hbk, List.filter_cons]
      · by_cases hbk : key b = k <;> simp [hak, hbk, List.filter_cons]

lemma filter_key_insertionSort {α : Type} (key : α → ℤ) (r : α → α → Prop) [DecidableRel r]
    (hk : ∀ x y, ¬ r x y → key x ≠ key y) (k : ℤ) (l : List α) :
    (l.insertionSort r).filter (fun c => key c == k) = l.filter (fun c => key c == k) := by
  induction l with
  | nil => rfl
  | cons a l ih =>
    rw [List.insertionSort, filter_key_orderedInsert key r hk a k _, ih, List.filter_cons]
    by_cases hak : key a = k <;> simp [hak]

/-- C4: the Competitor Filter. With `own = max(ownReviewCount, 1)` and
`cap = max(own * 25, 300)`: when at least 2 candidates have
`review_count ≤ cap`, the result is the first `want` of those candidates
in stable descending review-count order (sorted, and every key class kept
in input order); otherwise it is the first `want` of the entire original
candidate list in stable ascending order of `|review_count − own|`; and an
empty candidate list yields an empty result. -/
theorem C4_competitor_filter (candidates : List Competitor) (own_review_count : ℤ)
    (want : ℕ) (hwant : 0 < want) :
    (2 ≤ (candidates.filter fun c => c.review_count ≤ fCap (fOwn own_review_count)).length →
      ∃ out : List Competitor,
        out.Perm (candidates.filter fun c => c.review_count ≤ fCap (fOwn own_review_count)) ∧
        out.Pairwise descByReviews ∧
        (∀ k : ℤ, out.filter (fun c => c.review_count == k) =
          (candidates.filter fun c => c.review_count ≤ fCap (fOwn own_review_count)).filter
            (fun c => c.review_count == k)) ∧
        filterLocalCompetitors candidates own_review_count want = out.take want) ∧
    ((candidates.filter fun c => c.review_count ≤ fCap (fOwn own_review_count)).length < 2 →
      ∃ out : List Competitor,
        out.Perm candidates ∧
        out.Pairwise (byDistance (fOwn own_review_count)) ∧
        (∀ k : ℤ, out.filter (fun c => |c.review_count - fOwn own_review_count| == k) =
          candidates.filter (fun c => |c.review_count - fOwn own_review_count| == k)) ∧
        filterLocalCompetitors candidates own_review_count want = out.take want) ∧
    (candidates = [] → filterLocalCompetitors candidates own_review_count want = []) := by
  refine ⟨?_, ?_, ?_⟩
  · intro h2
    refine ⟨(candidates.filter fun c => c.review_count ≤ fCap (fOwn own_review_count)).insertionSort
        descByReviews, List.perm_insertionSort _ _, List.sorted_insertionSort _ _, ?_, ?_⟩
    · intro k
      have hk1 : ∀ x y : Competitor, ¬ descByReviews x y →
          x.review_count ≠ y.review_count := by
        intro x y h he
        exact h (show descByReviews x y from he.ge)
      exact filter_key_insertionSort (fun c => c.review_count) descByReviews hk1 k _
    · have hcond : 2 ≤ ((candidates.filter fun c =>
          c.review_count ≤ fCap (fOwn own_review_count)).insertionSort descByReviews).length := by
        rw [List.length_insertionSort]
        exact h2
      simp only [filterLocalCompetitors]
      rw [if_pos hcond]
  · intro h2
    refine ⟨candidates.insertionSort (byDistance (fOwn own_review_count)),
        List.perm_insertionSort _ _, List.sorted_insertionSort _ _, ?_, ?_⟩
    · intro k
      have hk2 : ∀ x y : Competitor, ¬ byDistance (fOwn own_review_count) x y →
          |x.review_count - fOwn own_review_count| ≠ |y.review_count - fOwn own_review_count| := by
        intro x y h he
        exact h (show byDistance (fOwn own_review_count) x y from he.le)
      exact filter_key_insertionSort (fun c => |c.review_count - fOwn own_review_count|)
        (byDistance (fOwn own_review_count)) hk2 k _
    · have hcond : ¬ (2 ≤ ((candidates.filter fun c =>
          c.review_count ≤ fCap (fOwn own_review_count)).insertionSort descByReviews).length) := by
        rw [List.length_insertionSort]
        omega
      simp only [filterLocalCompetitors]
      rw [if_neg hcond]
  · intro h
    subst h
    simp [filterLocalCompetitors]

/-- Witness for C4 at a concrete input with a tie: candidates "a"/"c"
share review count 20 and own count 10 gives cap 300, so the chain "d" is
dropped and the result is descending with the tied records "a" before "c"
exactly as in the input. -/
theorem C4_competitor_filter_witness :
    (∃ out : List Competitor,
      out.Perm ([⟨"a", 20⟩, ⟨"b", 50⟩, ⟨"c", 20⟩, ⟨"d", 5000⟩].filter fun c =>
        c.review_count ≤ fCap (fOwn 10)) ∧
      out.Pairwise descByReviews ∧
      (∀ k : ℤ, out.filter (fun c => c.review_count == k) =
        ([⟨"a", 20⟩, ⟨"b", 50⟩, ⟨"c", 20⟩, ⟨"d", 5000⟩].filter fun c =>
          c.review_count ≤ fCap (fOwn 10)).filter (fun c => c.review_count == k)) ∧
      filterLocalCompetitors [⟨"a", 20⟩, ⟨"b", 50⟩, ⟨"c", 20⟩, ⟨"d", 5000⟩] 10 5 =
        out.take 5) ∧
    filterLocalCompetitors [⟨"a", 20⟩, ⟨"b", 50⟩, ⟨"c", 20⟩, ⟨"d", 5000⟩] 10 5 =
      [⟨"b", 50⟩, ⟨"a", 20⟩, ⟨"c", 20⟩] :=
  ⟨(C4_competitor_filter [⟨"a", 20⟩, ⟨"b", 50⟩, ⟨"c", 20⟩, ⟨"d", 5000⟩] 10 5 (by decide)).1
     (by decide), by decide⟩

/-! ### Frame conditions: the filter and the scorer do not mutate their inputs -/

/-- A heap of Python list objects: cell `i` is the list object with
identity `i`; allocation appends a fresh cell. Only the competitor lists
that `_filter_local_competitors` touches live here. -/
abbrev ListHeap : Type := List (List Competitor)

/-- `_filter_local_competitors` with Python's list objects explicit.
`candidates` is a reference into the heap; the comprehension
`local = [c for c in candidates if ...]` allocates a fresh cell;
`local.sort(key=..., reverse=True)` mutates in place the cell `local`
refers to (a `List.set` on the heap); `sorted(candidates, ...)` builds a
new list without touching the heap. Returns the final heap and the
returned list value. -/
def filterLocalCompetitorsHeap (h : ListHeap) (candidates : ℕ) (own_review_count : ℤ)
    (want : ℕ) : ListHeap × List Competitor :=
  let own := fOwn own_review_count
  let cap := fCap own
  let h1 : ListHeap := h ++ [(h.getD candidates []).filter fun c => c.review_count ≤ cap]
  let locRef := h.length
  let h2 : ListHeap := h1.set locRef ((h1.getD locRef []).insertionSort descByReviews)
  if 2 ≤ (h2.getD locRef []).length then (h2, (h2.getD locRef []).take want)
  else (h2, ((h2.getD candidates []).insertionSort (byDistance own)).take want)

/-- `calculate_score` with its dict/list inputs as explicit state: every
statement of the body only reads `business` and `competitors` (the one
dict the function does mutate, `scores`, is freshly allocated inside the
call), so the state comes back unchanged alongside the result. -/
def calculateScoreState (σ : Business × List Competitor) (t : Option String) :
    ScoreResult × (Business × List Competitor) :=
  (calculateScore σ.1 σ.2 t, σ)

/-- C10: neither function mutates its inputs. In the heap model the one
in-place mutation (`local.sort`) hits only the freshly allocated cell, so
any valid input cell is unchanged and the returned value agrees with the
pure function; `calculate_score` returns its input state unchanged. -/
theorem C10_no_input_mutation :
    (∀ (h : ListHeap) (cand : ℕ) (rc : ℤ) (want : ℕ), cand < h.length →
      (filterLocalCompetitorsHeap h cand rc want).1.getD cand [] = h.getD cand [] ∧
      (filterLocalCompetitorsHeap h cand rc want).2 =
        filterLocalCompetitors (h.getD cand []) rc want) ∧
    (∀ (σ : Business × List Competitor) (t : Option String),
      (calculateScoreState σ t).2 = σ ∧
      (calculateScoreState σ t).1 = calculateScore σ.1 σ.2 t) := by
  constructor
  · intro h cand rc want hlt
    have hne : h.length ≠ cand := by omega
    have e1 : (h ++ [(h.getD cand []).filter fun c =>
        c.review_count ≤ fCap (fOwn rc)]).getD h.length [] =
        (h.getD cand []).filter fun c => c.review_count ≤ fCap (fOwn rc) := by
      rw [List.getD_append_right _ _ _ _ (le_refl _)]
      simp
    have e2 : ∀ v : List Competitor, ((h ++ [(h.getD cand []).filter fun c =>
        c.review_count ≤ fCap (fOwn rc)]).set h.length v).getD cand [] = h.getD cand [] := by
      intro v
      simp [List.getD_eq_getElem?_getD, List.getElem?_set_ne hne,
        List.getElem?_append_left hlt]
    have e3 : ∀ v : List Competitor, ((h ++ [(h.getD cand []).filter fun c =>
        c.review_count ≤ fCap (fOwn rc)]).set h.length v).getD h.length [] = v := by
      intro v
      have hl : h.length < (h ++ [(h.getD cand []).filter fun c =>
          c.review_count ≤ fCap (fOwn rc)]).length := by
        simp
      simp [List.getD_eq_getElem?_getD, List.getElem?_set_self hl]
    simp only [filterLocalCompetitorsHeap, e1, e2, e3]
    by_cases hc : 2 ≤ (((h.getD cand []).filter fun c =>
        c.review_count ≤ fCap (fOwn rc)).insertionSort descByReviews).length
    · rw [if_pos hc]
      refine ⟨e2 _, ?_⟩
      simp only [filterLocalCompetitors]
      rw [if_pos hc]
    · rw [if_neg hc]
      refine ⟨e2 _, ?_⟩
      simp only [filterLocalCompetitors]
      rw [if_neg hc]
  · intro σ t
    exact ⟨rfl, rfl⟩

/-- Witness for C10 at a concrete heap holding one candidate list. -/
theorem C10_no_input_mutation_witness :
    (filterLocalCompetitorsHeap [[⟨"a", 50⟩, ⟨"b", 20⟩, ⟨"c", 5000⟩]] 0 10 5).1.getD 0 [] =
      [⟨"a", 50⟩, ⟨"b", 20⟩, ⟨"c", 5000⟩] ∧
    (filterLocalCompetitorsHeap [[⟨"a", 50⟩, ⟨"b", 20⟩, ⟨"c", 5000⟩]] 0 10 5).2 =
      filterLocalCompetitors [⟨"a", 50⟩, ⟨"b", 20⟩, ⟨"c", 5000⟩] 10 5 :=
  C10_no_input_mutation.1 [[⟨"a", 50⟩, ⟨"b", 20⟩, ⟨"c", 5000⟩]] 0 10 5 (by decide)
